import Mathlib

/-!
Shallow embedding of the persisted key-value slot
(`src/hooks/useLocalStorage.ts`, function `useLocalStorage`) and of the
global theme broadcaster (`src/contexts/ThemeContext.tsx`, both the simple
and the enhanced variant) of the react-nextjs-tips repository.

Modelling conventions:
* the browser durable store (`window.localStorage`) is an association list
  `Store` of string keys to string values; its primitives `getItem` and
  `setItem` are supplied through a `StoreOps` record so that both a
  well-behaved store (`goodOps`) and a store whose primitives throw on every
  call (`throwOps`) can be plugged in;
* JavaScript exceptions are modelled with `Except Unit`; a `try { .. } catch`
  whose body mutates state step by step is modelled with `TryOutcome`, which
  records the state reached when an exception escapes the try block, so that
  the catch handler resumes with exactly the side effects already performed;
* `JSON.stringify` / `JSON.parse` are host primitives external to the
  repository; they are supplied through a `Codec` record (`stringify` may
  throw, e.g. on circular values; `parse` may throw on corrupt text);
* `typeof window === 'undefined'` is the boolean `hasWindow` (negated);
* JavaScript string truthiness (`item ? .. : ..` on a `string | null`) is
  `none`-or-empty-string checks, written out explicitly.
-/

namespace ReactTips

/-- The durable store contents: `window.localStorage` as an association list
of string keys to string values. -/
abbrev Store := List (String × String)

/-- Lookup of a key in the durable store (the semantics of a well-behaved
`localStorage.getItem`): first binding wins, `none` when absent. -/
def lookupStore : Store → String → Option String
  | [], _ => none
  | (k2, v) :: rest, k => if k2 = k then some v else lookupStore rest k

/-- Overwriting insert into the durable store (the semantics of a
well-behaved `localStorage.setItem`). -/
def insertStore : Store → String → String → Store
  | [], k, v => [(k, v)]
  | (k2, v2) :: rest, k, v =>
      if k2 = k then (k, v) :: rest else (k2, v2) :: insertStore rest k v

/-- The durable-store primitives as seen by the code: `getItem` and `setItem`
may throw (quota, access denied, unavailable API), modelled by `Except`. -/
structure StoreOps where
  getItem : Store → String → Except Unit (Option String)
  setItem : Store → String → String → Except Unit Store

/-- A durable store whose primitives always succeed with ordinary
dictionary semantics. -/
def goodOps : StoreOps where
  getItem s k := Except.ok (lookupStore s k)
  setItem s k v := Except.ok (insertStore s k v)

/-- A durable store whose primitives throw on every call (the simulation
prescribed by property P7 of the spec). -/
def throwOps : StoreOps where
  getItem _ _ := Except.error ()
  setItem _ _ _ := Except.error ()

/-- The host (de)serialization pair: `JSON.stringify` (may throw, e.g. on a
circular value) and `JSON.parse` followed by the implicit shape check (may
throw on corrupt text). External collaborator, supplied as a parameter. -/
structure Codec (α : Type) where
  stringify : α → Except Unit String
  parse : String → Except Unit α

/-- The argument of `setValue`: either a literal value or a functional
updater `(prev: T) => T`; a JavaScript updater may itself throw, hence
`Except Unit α`. Mirrors `value instanceof Function ? value(storedValue)
: value` in `useLocalStorage.ts`. -/
inductive Updater (α : Type) where
  | value (v : α)
  | fn (f : α → Except Unit α)

/-- Resolution of the `setValue` argument against the current in-memory
value (`const valueToStore = value instanceof Function ? value(storedValue)
: value`, useLocalStorage.ts line 50). -/
def resolveUpdater (cur : α) : Updater α → Except Unit α
  | .value v => Except.ok v
  | .fn f => f cur

/-- State of one persisted key-value slot: the React in-memory value
(`storedValue`) plus the durable store contents. -/
structure SlotState (α : Type) where
  memory : α
  store : Store

/-- The `useState` initializer of `useLocalStorage` (lines 31-44): the
`open(key, defaultValue)` operation of the spec. The whole fallible region
(getItem and JSON.parse) sits inside `try { .. } catch { return
initialValue }`; `item ? JSON.parse(item) : initialValue` makes a `null` or
empty-string entry fall back to `initialValue` by string truthiness. -/
def openSlot (hasWindow : Bool) (ops : StoreOps) (c : Codec α)
    (key : String) (initialValue : α) (store : Store) : α :=
  if hasWindow then
    match ops.getItem store key with
    | Except.error _ => initialValue
    | Except.ok none => initialValue
    | Except.ok (some item) =>
        if item = "" then initialValue
        else
          match c.parse item with
          | Except.error _ => initialValue
          | Except.ok v => v
  else initialValue

/-- Outcome of a `try` block over a state-mutating body: either the body
completed with final state `s`, or an exception escaped the body with the
side effects performed so far recorded in `s` (a catch handler that swallows
the exception resumes from exactly that state). -/
inductive TryOutcome (σ : Type) where
  | completed (s : σ)
  | raised (s : σ)

/-- The `try` block of `setValue` (useLocalStorage.ts lines 48-58), step by
step: resolve the updater (may throw, before any mutation), update the React
state (cannot throw), then — only when a window exists — stringify (may
throw) and `setItem` (may throw). A throw after the memory update leaves the
memory updated. -/
def setValueBody (hasWindow : Bool) (ops : StoreOps) (c : Codec α)
    (key : String) (st : SlotState α) (next : Updater α) :
    TryOutcome (SlotState α) :=
  match resolveUpdater st.memory next with
  | Except.error _ => TryOutcome.raised st
  | Except.ok v =>
      let st1 : SlotState α := ⟨v, st.store⟩
      if hasWindow then
        match c.stringify v with
        | Except.error _ => TryOutcome.raised st1
        | Except.ok str =>
            match ops.setItem st1.store key str with
            | Except.error _ => TryOutcome.raised st1
            | Except.ok s2 => TryOutcome.completed ⟨v, s2⟩
      else TryOutcome.completed st1

/-- The full `setValue` of `useLocalStorage` (lines 47-62): the try block
wrapped in the catch handler, which only logs — whatever state the body
reached is kept, and no exception propagates to the caller. -/
def setValue (hasWindow : Bool) (ops : StoreOps) (c : Codec α)
    (key : String) (st : SlotState α) (next : Updater α) : SlotState α :=
  match setValueBody hasWindow ops c key st next with
  | TryOutcome.completed s => s
  | TryOutcome.raised s => s

/-- A concrete codec over booleans used to instantiate witnesses: the JSON
rendering of `true` and `false`, with parsing failing on any other text. -/
def boolCodec : Codec Bool where
  stringify b := Except.ok (if b then "true" else "false")
  parse s :=
    if s = "true" then Except.ok true
    else if s = "false" then Except.ok false
    else Except.error ()

/-! Theme broadcaster (`src/contexts/ThemeContext.tsx`). Two variants exist
in the repository: the simple one (enumeration `light | dark`, hard-coded
storage key `theme`) and the enhanced one (enumeration
`light | dark | system`). TypeScript union types are erased at runtime, so
theme values are modelled as `String`, with membership in the closed
enumeration stated as an explicit predicate where a claim needs it. -/

/-- State of the simple ThemeProvider: the shared `theme` React state plus
the durable store contents. -/
structure ThemeState where
  theme : String
  store : Store

/-- Simple variant `getStoredTheme` (ThemeContext.tsx, simple variant lines
268-276): returns the stored entry when it is truthy and a member of
`['light', 'dark']`, and the hard-coded `'light'` when the window is absent,
the entry is absent, falsy or invalid, or `getItem` throws. -/
def getStoredTheme (hasWindow : Bool) (ops : StoreOps) (store : Store) :
    String :=
  if hasWindow then
    match ops.getItem store "theme" with
    | Except.error _ => "light"
    | Except.ok none => "light"
    | Except.ok (some stored) =>
        if stored ≠ "" ∧ (stored = "light" ∨ stored = "dark") then stored
        else "light"
  else "light"

/-- Simple variant ThemeProvider `useState` initializer (lines 333-336):
`const stored = getStoredTheme(); return stored || defaultTheme;` — the
`|| defaultTheme` fallback fires only when `stored` is a falsy string. -/
def initTheme (hasWindow : Bool) (ops : StoreOps) (store : Store)
    (defaultTheme : String) : String :=
  let stored := getStoredTheme hasWindow ops store
  if stored = "" then defaultTheme else stored

/-- Enhanced variant `getStoredTheme` (lines 46-54): valid set
`['light', 'dark', 'system']`, fallback `'system'`. -/
def getStoredThemeEnhanced (hasWindow : Bool) (ops : StoreOps)
    (store : Store) : String :=
  if hasWindow then
    match ops.getItem store "theme" with
    | Except.error _ => "system"
    | Except.ok none => "system"
    | Except.ok (some stored) =>
        if stored ≠ "" ∧ (stored = "light" ∨ stored = "dark" ∨ stored = "system")
        then stored else "system"
  else "system"

/-- Enhanced variant ThemeProvider `useState` initializer (lines 101-104):
same `stored || defaultTheme` shape as the simple variant. -/
def initThemeEnhanced (hasWindow : Bool) (ops : StoreOps) (store : Store)
    (defaultTheme : String) : String :=
  let stored := getStoredThemeEnhanced hasWindow ops store
  if stored = "" then defaultTheme else stored

/-- Simple variant `setTheme` (lines 342-351): update the React state
unconditionally, then best-effort persist under the hard-coded key `theme`
inside `try { .. } catch { warn }`. There is no runtime membership check on
`newTheme`. -/
def setTheme (ops : StoreOps) (st : ThemeState) (newTheme : String) :
    ThemeState :=
  let st1 : ThemeState := ⟨newTheme, st.store⟩
  match ops.setItem st.store "theme" newTheme with
  | Except.error _ => st1
  | Except.ok s2 => ⟨newTheme, s2⟩

/-- Simple variant `toggleTheme` (lines 354-356):
`setTheme(theme === 'light' ? 'dark' : 'light')`. -/
def toggleTheme (ops : StoreOps) (st : ThemeState) : ThemeState :=
  setTheme ops st (if st.theme = "light" then "dark" else "light")

/-- The value carried by the React theme context, as observed by a
subscriber through `useTheme` (the setter closures are modelled separately
as `setTheme` and `toggleTheme` over the provider state). -/
structure ThemeContextValue where
  theme : String

/-- Simple variant `useTheme` (lines 293-308): `useContext` yields the
provider's context value, or `undefined` outside any provider scope, in
which case the hook throws. An object context value is always truthy, so
`!context` is exactly the `none` case. -/
def useTheme (ctx : Option ThemeContextValue) :
    Except String ThemeContextValue :=
  match ctx with
  | none => Except.error "useTheme must be used inside ThemeProvider: wrap your app with ThemeProvider."
  | some c => Except.ok c

/-- Enhanced variant `useTheme` (lines 72-83): identical guard, different
message. -/
def useThemeEnhanced (ctx : Option ThemeContextValue) :
    Except String ThemeContextValue :=
  match ctx with
  | none => Except.error "useTheme must be used within a ThemeProvider. Make sure to wrap your app with ThemeProvider."
  | some c => Except.ok c

/-- Root presentation context: the document-level attributes the theme
effect writes (`document.documentElement` class list and attributes,
`document.body` class list). -/
structure Dom where
  rootClasses : List String
  bodyClasses : List String
  dataTheme : String
  colorScheme : String

/-- `classList.remove(t)`: drop every occurrence of the token. -/
def classListRemove (cs : List String) (t : String) : List String :=
  cs.filter (fun c => c ≠ t)

/-- `classList.add(t)`: append the token unless already present
(DOMTokenList is a set). -/
def classListAdd (cs : List String) (t : String) : List String :=
  if t ∈ cs then cs else cs ++ [t]

/-- The simple variant DOM theme effect (lines 363-378): remove `light` and
`dark` from root and body class lists, add the current theme class, set the
`data-theme` attribute and `colorScheme` style on the root. -/
def applyThemeEffect (theme : String) (dom : Dom) : Dom :=
  { rootClasses :=
      classListAdd (classListRemove (classListRemove dom.rootClasses "light") "dark") theme
    bodyClasses :=
      classListAdd (classListRemove (classListRemove dom.bodyClasses "light") "dark") theme
    dataTheme := theme
    colorScheme := theme }

/-- Whole-system state for the broadcaster consistency claim: the shared
theme value, the durable store and the root presentation context. -/
structure SysState where
  theme : String
  store : Store
  dom : Dom

/-- One synchronous update cycle of the simple variant provider: `setTheme`
followed by the re-render in which the DOM theme effect fires with the new
theme. -/
def setThemeCycle (ops : StoreOps) (st : SysState) (m : String) : SysState :=
  let ts := setTheme ops ⟨st.theme, st.store⟩ m
  { theme := ts.theme, store := ts.store, dom := applyThemeEffect ts.theme st.dom }

/-- What any active subscriber's `read()` returns: the single shared context
value distributed by the provider — every subscriber observes the same
`theme` field of the same state. -/
def readTheme (st : SysState) : String :=
  st.theme

/-! Helper lemmas shared by the claim theorems. -/

/-- A well-behaved `setItem` followed by `getItem` on the same key returns
the written text. -/
theorem lookup_insert (s : Store) (k v : String) :
    lookupStore (insertStore s k v) k = some v := by
  induction s with
  | nil => simp [insertStore, lookupStore]
  | cons hd tl ih =>
      obtain ⟨k2, v2⟩ := hd
      by_cases h : k2 = k <;> simp [insertStore, lookupStore, h, ih]

/-- Both branches of `setTheme` set the React theme state to the argument,
whatever the durable store does. -/
theorem setTheme_theme (ops : StoreOps) (st : ThemeState) (m : String) :
    (setTheme ops st m).theme = m := by
  unfold setTheme
  cases ops.setItem st.store "theme" m <;> rfl

/-- A token is a member of the class list after `classList.add` of it. -/
theorem mem_classListAdd_self (cs : List String) (t : String) :
    t ∈ classListAdd cs t := by
  by_cases h : t ∈ cs <;> simp [classListAdd, h]

/-- `classList.add` of a different token does not introduce membership. -/
theorem not_mem_classListAdd (cs : List String) (t o : String)
    (ho : o ∉ cs) (hne : o ≠ t) : o ∉ classListAdd cs t := by
  by_cases h : t ∈ cs <;> simp [classListAdd, h, ho, hne]

/-- A token is never a member of the class list after `classList.remove`
of it. -/
theorem classListRemove_self (cs : List String) (o : String) :
    o ∉ classListRemove cs o := by
  simp [classListRemove, List.mem_filter]

/-- `classList.remove` never introduces membership. -/
theorem classListRemove_mono (cs : List String) (t o : String)
    (h : o ∉ cs) : o ∉ classListRemove cs t := by
  intro hmem
  exact h (List.mem_of_mem_filter hmem)

/-! Claim theorems. -/

/-- C1: the slot operations never raise to their caller. Under the store
whose `getItem` / `setItem` primitives throw on every call (and an arbitrary
codec), `open(key, defaultValue)` still returns `defaultValue`, and
`setValue(next)` still returns a well-defined state for a literal argument
and for a functional updater — every storage and (de)serialization failure
is absorbed by the internal try/catch blocks. -/
theorem slot_no_throw {α : Type} (c : Codec α) (key : String) (d v : α)
    (st : SlotState α) (f : α → Except Unit α) :
    openSlot true throwOps c key d st.store = d ∧
    setValue true throwOps c key st (Updater.value v) = ⟨v, st.store⟩ ∧
    setValue true throwOps c key st (Updater.fn f) =
      (match f st.memory with
       | Except.ok w => SlotState.mk w st.store
       | Except.error _ => st) := by
  refine ⟨rfl, ?_, ?_⟩
  · cases hs : c.stringify v <;>
      simp [setValue, setValueBody, resolveUpdater, throwOps, hs]
  · cases hf : f st.memory with
    | error e =>
        simp [setValue, setValueBody, resolveUpdater, hf]
    | ok w =>
        cases hs : c.stringify w <;>
          simp [setValue, setValueBody, resolveUpdater, throwOps, hf, hs]

/-- C2: when the durable store has no entry for the key, or an entry whose
deserialization fails, `open(key, d)` returns `d` and no error. -/
theorem open_fallback {α : Type} (c : Codec α) (store : Store)
    (key : String) (d : α)
    (h : lookupStore store key = none ∨
         ∃ s, lookupStore store key = some s ∧ c.parse s = Except.error ()) :
    openSlot true goodOps c key d store = d := by
  rcases h with h | ⟨s, hs, hp⟩
  · simp [openSlot, goodOps, h]
  · by_cases he : s = "" <;> simp [openSlot, goodOps, hs, he, hp]

/-- C2 witness: a corrupt entry for the key falls back to the default. -/
theorem open_fallback_witness :
    openSlot true goodOps boolCodec "k" false [("k", "abc")] = false :=
  open_fallback boolCodec [("k", "abc")] "k" false
    (Or.inr ⟨"abc", by decide, rfl⟩)

/-- C3: round-trip — writing `v` through `setValue` and then opening a fresh
slot handle on the same key over the resulting durable store yields `v`,
under a well-behaved store and a codec whose parse inverts stringify on
`v`. -/
theorem slot_round_trip {α : Type} (c : Codec α) (key : String) (d : α)
    (st : SlotState α) (v : α) (str : String)
    (hs : c.stringify v = Except.ok str) (hne : str ≠ "")
    (hp : c.parse str = Except.ok v) :
    openSlot true goodOps c key d
      (setValue true goodOps c key st (Updater.value v)).store = v := by
  have hset : setValue true goodOps c key st (Updater.value v) =
      ⟨v, insertStore st.store key str⟩ := by
    simp [setValue, setValueBody, resolveUpdater, goodOps, hs]
  rw [hset]
  simp [openSlot, goodOps, lookup_insert, hne, hp]

/-- C3 witness: writing `true` under key `k` over an empty store, then
opening fresh with default `false`, recovers `true`. -/
theorem slot_round_trip_witness :
    openSlot true goodOps boolCodec "k" false
      (setValue true goodOps boolCodec "k" ⟨false, []⟩
        (Updater.value true)).store = true :=
  slot_round_trip boolCodec "k" false ⟨false, []⟩ true "true"
    rfl (by decide) rfl

/-- C4: memory-first write ordering — whenever the updater resolves to `v`,
the state after `setValue` holds `v` in memory, for every store behavior and
codec, including ones where serialization or the durable write fails. -/
theorem setValue_memory_first {α : Type} (hasWindow : Bool) (ops : StoreOps)
    (c : Codec α) (key : String) (st : SlotState α) (next : Updater α)
    (v : α) (h : resolveUpdater st.memory next = Except.ok v) :
    (setValue hasWindow ops c key st next).memory = v := by
  cases hasWindow with
  | false => simp [setValue, setValueBody, h]
  | true =>
      cases hs : c.stringify v with
      | error e => simp [setValue, setValueBody, h, hs]
      | ok str =>
          cases hw : ops.setItem st.store key str with
          | error e => simp [setValue, setValueBody, h, hs, hw]
          | ok s2 => simp [setValue, setValueBody, h, hs, hw]

/-- C4 witness: with a store whose write throws, the in-memory value still
holds the new value after `setValue`. -/
theorem setValue_memory_first_witness :
    (setValue true throwOps boolCodec "k" ⟨false, []⟩
      (Updater.value true)).memory = true :=
  setValue_memory_first true throwOps boolCodec "k" ⟨false, []⟩
    (Updater.value true) true rfl

/-- C10: a functional updater that throws on the current value makes
`setValue` a silent no-op — the exception is swallowed, the in-memory value
is unchanged and the durable store is untouched, for every store behavior
and codec. -/
theorem setValue_throwing_updater {α : Type} (hasWindow : Bool)
    (ops : StoreOps) (c : Codec α) (key : String) (st : SlotState α)
    (f : α → Except Unit α) (h : f st.memory = Except.error ()) :
    setValue hasWindow ops c key st (Updater.fn f) = st := by
  simp [setValue, setValueBody, resolveUpdater, h]

/-- C10 witness: an always-throwing updater leaves the slot state exactly as
it was, even over a fully working store. -/
theorem setValue_throwing_updater_witness :
    setValue true goodOps boolCodec "k" ⟨false, []⟩
      (Updater.fn (fun _ => Except.error ())) = ⟨false, []⟩ :=
  setValue_throwing_updater true goodOps boolCodec "k" ⟨false, []⟩
    (fun _ => Except.error ()) rfl

/-- C5: evaluation of the provider initializer at the failing input. With a
working window and a durable store holding no theme entry, the simple
variant initialized with caller default `dark` starts at the hard-coded
`light`, and the enhanced variant initialized with explicit caller default
`light` starts at the hard-coded `system` — `getStoredTheme` never returns a
falsy string, so the `stored || defaultTheme` fallback to the caller default
is dead code in both variants. -/
theorem initTheme_ignores_default :
    initTheme true goodOps [] "dark" = "light" ∧
    initThemeEnhanced true goodOps [] "light" = "system" :=
  ⟨rfl, rfl⟩

/-- C6 counterexample: `banana` is outside the closed enumeration, yet
`setTheme` updates the shared value to it and persists it — the call is not
rejected and the state visibly mutates, contradicting the claimed
validate-and-reject behavior. -/
theorem setTheme_no_validation_cex :
    ¬ ("banana" = "light" ∨ "banana" = "dark") ∧
    (setTheme goodOps ⟨"light", []⟩ "banana").theme = "banana" ∧
    lookupStore (setTheme goodOps ⟨"light", []⟩ "banana").store "theme" =
      some "banana" :=
  ⟨by decide, rfl, rfl⟩

/-- C6 amended: `setTheme` performs no runtime membership validation — for
every string argument, including values outside the closed enumeration, it
unconditionally updates the shared value to the argument, and over a working
store it also persists the argument under the `theme` key; no caller-visible
failure occurs. Membership is enforced only by the static type system and on
read-back, where `getStoredTheme` maps invalid persisted entries to the
fallback. -/
theorem setTheme_unconditional (ops : StoreOps) (st : ThemeState)
    (m : String) :
    (setTheme ops st m).theme = m ∧
    setTheme goodOps st m = ⟨m, insertStore st.store "theme" m⟩ := by
  refine ⟨setTheme_theme ops st m, ?_⟩
  simp [setTheme, goodOps]

/-- C7: wiring-error fatality — outside any provider scope the context is
`undefined`, and both variants of `useTheme` (the sole access point to
`read`, `set` and `toggle`) raise an error to the immediate caller instead
of returning a default. -/
theorem useTheme_requires_provider (ctx : Option ThemeContextValue)
    (h : ctx = none) :
    (∃ msg, useTheme ctx = Except.error msg) ∧
    (∃ msg, useThemeEnhanced ctx = Except.error msg) := by
  subst h
  exact ⟨⟨_, rfl⟩, ⟨_, rfl⟩⟩

/-- C7 witness: the hook evaluated at the missing context. -/
theorem useTheme_requires_provider_witness :
    (∃ msg, useTheme none = Except.error msg) ∧
    (∃ msg, useThemeEnhanced none = Except.error msg) :=
  useTheme_requires_provider none rfl

/-- C8: toggle involution — over the two-valued enumeration of the simple
variant, each `toggleTheme` sets the theme to the other value (via
`setTheme`), and two applications restore the original theme, whatever the
durable store does. -/
theorem toggle_involution (ops : StoreOps) (st : ThemeState)
    (h : st.theme = "light" ∨ st.theme = "dark") :
    (toggleTheme ops (toggleTheme ops st)).theme = st.theme ∧
    (toggleTheme ops st).theme =
      (if st.theme = "light" then "dark" else "light") := by
  rcases h with h | h <;>
    simp [toggleTheme, setTheme_theme, h]

/-- C8 witness: starting from `light`, one toggle reaches `dark` and a
second toggle returns to `light`. -/
theorem toggle_involution_witness :
    (toggleTheme goodOps (toggleTheme goodOps ⟨"light", []⟩)).theme =
      "light" ∧
    (toggleTheme goodOps ⟨"light", []⟩).theme =
      (if ("light" : String) = "light" then "dark" else "light") :=
  toggle_involution goodOps ⟨"light", []⟩ (Or.inl rfl)

/-- C9: broadcaster consistency — after one synchronous update cycle of
`set(m)` with `m` in the enumeration, every subscriber's read of the shared
context value returns `m`, and the root presentation context mirrors `m`:
the `data-theme` attribute and `colorScheme` equal `m`, the root class list
contains `m` and no longer contains the other theme class. -/
theorem broadcaster_consistency (ops : StoreOps) (st : SysState) (m : String)
    (h : m = "light" ∨ m = "dark") :
    readTheme (setThemeCycle ops st m) = m ∧
    (setThemeCycle ops st m).dom.dataTheme = m ∧
    (setThemeCycle ops st m).dom.colorScheme = m ∧
    m ∈ (setThemeCycle ops st m).dom.rootClasses ∧
    (if m = "light" then "dark" else "light") ∉
      (setThemeCycle ops st m).dom.rootClasses := by
  have hcycle : setThemeCycle ops st m =
      { theme := m, store := (setTheme ops ⟨st.theme, st.store⟩ m).store,
        dom := applyThemeEffect m st.dom } := by
    simp [setThemeCycle, setTheme_theme]
  rw [hcycle]
  refine ⟨rfl, rfl, rfl, mem_classListAdd_self _ m, ?_⟩
  rcases h with h | h <;> subst h
  · simp only [if_pos rfl, applyThemeEffect]
    exact not_mem_classListAdd
      (classListRemove (classListRemove st.dom.rootClasses "light") "dark")
      "light" "dark"
      (classListRemove_self (classListRemove st.dom.rootClasses "light")
        "dark")
      (by decide)
  · simp only [if_neg (by decide : ¬ ("dark" : String) = "light"),
      applyThemeEffect]
    exact not_mem_classListAdd
      (classListRemove (classListRemove st.dom.rootClasses "light") "dark")
      "dark" "light"
      (classListRemove_mono (classListRemove st.dom.rootClasses "light")
        "dark" "light"
        (classListRemove_self st.dom.rootClasses "light"))
      (by decide)

/-- C9 witness: switching from `dark` to `light` over a concrete DOM leaves
every consistency condition holding. -/
theorem broadcaster_consistency_witness :
    readTheme (setThemeCycle goodOps
      ⟨"dark", [], ⟨["dark"], ["dark"], "dark", "dark"⟩⟩ "light") =
      "light" ∧
    (setThemeCycle goodOps
      ⟨"dark", [], ⟨["dark"], ["dark"], "dark", "dark"⟩⟩
      "light").dom.dataTheme = "light" ∧
    (setThemeCycle goodOps
      ⟨"dark", [], ⟨["dark"], ["dark"], "dark", "dark"⟩⟩
      "light").dom.colorScheme = "light" ∧
    "light" ∈ (setThemeCycle goodOps
      ⟨"dark", [], ⟨["dark"], ["dark"], "dark", "dark"⟩⟩
      "light").dom.rootClasses ∧
    (if ("light" : String) = "light" then "dark" else "light") ∉
      (setThemeCycle goodOps
        ⟨"dark", [], ⟨["dark"], ["dark"], "dark", "dark"⟩⟩
        "light").dom.rootClasses :=
  broadcaster_consistency goodOps
    ⟨"dark", [], ⟨["dark"], ["dark"], "dark", "dark"⟩⟩ "light" (Or.inl rfl)

end ReactTips
